import Mathlib

/-!
Shallow embedding of the derived-metrics and simulation engine of the
GenAI Security Maturity Explorer dashboard (src/app.py).

Scores are modelled as rationals (the Python floats here are all exact
decimal fractions: multiples of 0.1, so no rounding is involved).
A row of the maturity table is a `List ℚ` of length 4, in the positional
order of the source's DIMENSIONS list:
index 0 = "Threat Maturity", index 1 = "Technical Controls",
index 2 = "Governance Enforcement", index 3 = "Stakeholder Protections".
-/

/-- The four threat categories, in the order of `THREAT_CATEGORIES` (app.py:24). -/
inductive Category
  | promptInjection
  | autonomyHarms
  | politicalIntegrity
  | privacy
deriving DecidableEq, Repr

/-- `THREAT_CATEGORIES` (app.py:24): the fixed row order of the matrix. -/
def THREAT_CATEGORIES : List Category :=
  [Category.promptInjection, Category.autonomyHarms,
   Category.politicalIntegrity, Category.privacy]

/-- `MATURITY_DATA_2025` (app.py:40). -/
def MATURITY_DATA_2025 : Category → List ℚ
  | Category.promptInjection => [4, 5/2, 2, 1/2]
  | Category.autonomyHarms => [4, 2, 2, 1/2]
  | Category.politicalIntegrity => [4, 1, 1/2, 1/2]
  | Category.privacy => [4, 2, 2, 2]

/-- `MATURITY_DATA_2026` (app.py:48). -/
def MATURITY_DATA_2026 : Category → List ℚ
  | Category.promptInjection => [4, 3, 5/2, 1]
  | Category.autonomyHarms => [4, 5/2, 5/2, 1]
  | Category.politicalIntegrity => [4, 2, 3/2, 1]
  | Category.privacy => [4, 5/2, 5/2, 5/2]

/-- `MATURITY_DATA_2027` (app.py:55). -/
def MATURITY_DATA_2027 : Category → List ℚ
  | Category.promptInjection => [4, 7/2, 3, 2]
  | Category.autonomyHarms => [4, 3, 3, 3/2]
  | Category.politicalIntegrity => [4, 5/2, 5/2, 3/2]
  | Category.privacy => [4, 3, 3, 3]

/-- `get_level_description` (app.py:279): band lookup for a maturity score. -/
def get_level_description (level : ℚ) : String :=
  if level < 1/2 then "Non-existent"
  else if level < 3/2 then "Initial/Ad-hoc"
  else if level < 5/2 then "Developing"
  else if level < 7/2 then "Defined"
  else "Managed/Mature"

/-- The process-wide tables the dashboard reads (app.py:40-60).  Modelling
them as explicit state lets the frame property (the tables are never
mutated by any render) be stated rather than assumed. -/
structure AppState where
  maturity_data_2025 : Category → List ℚ
  maturity_data_2026 : Category → List ℚ
  maturity_data_2027 : Category → List ℚ

/-- The tables as initialized at process start. -/
def initialState : AppState :=
  ⟨MATURITY_DATA_2025, MATURITY_DATA_2026, MATURITY_DATA_2027⟩

/-- `get_maturity_data` (app.py:319) reading from explicit state: selects the
table for the year string, falling back to the 2025 table for any other year. -/
def get_maturity_data_of (s : AppState) (year : String) : Category → List ℚ :=
  if year = "2025" then s.maturity_data_2025
  else if year = "2026" then s.maturity_data_2026
  else if year = "2027" then s.maturity_data_2027
  else s.maturity_data_2025

/-- `get_maturity_data` (app.py:319) against the startup tables. -/
def get_maturity_data (year : String) : Category → List ℚ :=
  get_maturity_data_of initialState year

/-- The 2025 lookup, reduced. -/
lemma get_maturity_data_2025 : get_maturity_data "2025" = MATURITY_DATA_2025 := rfl

/-- The 2026 lookup, reduced. -/
lemma get_maturity_data_2026 : get_maturity_data "2026" = MATURITY_DATA_2026 := rfl

/-- The 2027 lookup, reduced. -/
lemma get_maturity_data_2027 : get_maturity_data "2027" = MATURITY_DATA_2027 := rfl

/-- The row adjustment performed inside `create_heatmap` (app.py:339-346):
the row is first copied (`data[category].copy()`), then, only when the
adjustment is positive, index 2 (governance) is set to
`min(4.0, row[2] + adjustment * 0.5)` and index 3 (stakeholder) to
`min(4.0, row[3] + adjustment * 0.3)`, the second read seeing the first write. -/
def adjustRow (governance_adjustment : ℕ) (row : List ℚ) : List ℚ :=
  if 0 < governance_adjustment then
    let r1 := row.set 2 (min 4 (row.getD 2 0 + governance_adjustment * (1/2)))
    let r2 := r1.set 3 (min 4 (r1.getD 3 0 + governance_adjustment * (3/10)))
    r2
  else row

/-- The z-value matrix built by `create_heatmap` (app.py:330-348): one adjusted
row per category. -/
def create_heatmap_z (year : String) (governance_adjustment : ℕ)
    (category : Category) : List ℚ :=
  adjustRow governance_adjustment (get_maturity_data year category)

/-- The per-cell maturity label shown in `create_heatmap`'s hover text
(app.py:352-354): `level = row_values[i]; level_desc = get_level_description(level)`,
i.e. the label of the adjusted value, not of the base value. -/
def create_heatmap_label (year : String) (governance_adjustment : ℕ)
    (category : Category) (i : ℕ) : String :=
  get_level_description ((create_heatmap_z year governance_adjustment category).getD i 0)

/-- `np.mean` over a list of rationals (sum divided by length). -/
def npMean (xs : List ℚ) : ℚ := xs.sum / (xs.length : ℚ)

/-- The per-category gap of `create_gap_analysis_chart` (app.py:467-470):
`threat_level = data[cat][0]`, `avg_protection = np.mean(data[cat][1:])`,
`gap = threat_level - avg_protection`; the chart takes only the year,
so it always reads the un-adjusted base matrix. -/
def create_gap_analysis_gap (year : String) (cat : Category) : ℚ :=
  let data := get_maturity_data year
  let threat_level := (data cat).getD 0 0
  let avg_protection := npMean ((data cat).drop 1)
  threat_level - avg_protection

/-- The bar-color selection of `create_gap_analysis_chart` (app.py:481):
`'#d73027' if g > 2.5 else '#fc8d59' if g > 2 else '#fee08b' if g > 1.5 else '#d9ef8b'`. -/
def severityColor (g : ℚ) : String :=
  if g > 5/2 then "#d73027"
  else if g > 2 then "#fc8d59"
  else if g > 3/2 then "#fee08b"
  else "#d9ef8b"

/-- The category names, as the UI passes them (dropdown values / click data). -/
def categoryOfName (name : String) : Option Category :=
  if name = "Prompt Injection" then some Category.promptInjection
  else if name = "Autonomy Harms" then some Category.autonomyHarms
  else if name = "Political Integrity" then some Category.politicalIntegrity
  else if name = "Privacy" then some Category.privacy
  else none

/-- The data series of `create_radar_chart` (app.py:534-541): if the category
name is not a key of the year's table it returns an empty figure (modelled as
`none`); otherwise the figure plots the category's un-adjusted base row. -/
def create_radar_chart (category : String) (year : String) : Option (List ℚ) :=
  match categoryOfName category with
  | none => none
  | some cat => some (get_maturity_data year cat)

/-- The five summary numbers computed in the `update_charts` callback
(app.py:1008-1012). -/
structure QuickStats where
  avg_threat : ℚ
  avg_tech : ℚ
  avg_gov : ℚ
  avg_stake : ℚ
  overall_gap : ℚ
deriving DecidableEq

/-- The quick statistics of `update_charts` (app.py:997-1012).  The callback
receives the governance slider value but computes every average from
`get_maturity_data(year)`, the un-adjusted base matrix. -/
def update_charts_stats (year : String) (governance_adj : ℕ) : QuickStats :=
  let data := get_maturity_data year
  let avg_threat := npMean (THREAT_CATEGORIES.map (fun cat => (data cat).getD 0 0))
  let avg_tech := npMean (THREAT_CATEGORIES.map (fun cat => (data cat).getD 1 0))
  let avg_gov := npMean (THREAT_CATEGORIES.map (fun cat => (data cat).getD 2 0))
  let avg_stake := npMean (THREAT_CATEGORIES.map (fun cat => (data cat).getD 3 0))
  ⟨avg_threat, avg_tech, avg_gov, avg_stake, avg_threat - avg_stake⟩

/-- The gap-chart series produced inside `update_charts` (app.py:1003): the
callback receives the governance slider value but calls
`create_gap_analysis_chart(year, dark_mode)` without it. -/
def update_charts_gap_chart (year : String) (governance_adj : ℕ) : Category → ℚ :=
  fun cat => create_gap_analysis_gap year cat

/-- The engine operations a render can trigger, with the arguments the UI
supplies (app.py:989-1050). -/
inductive Op
  | heatmap (year : String) (governance_adjustment : ℕ)
  | gapChart (year : String)
  | radar (category : String) (year : String)
  | quickStats (year : String) (governance_adj : ℕ)

/-- The rendered artifact of one operation, as read from explicit state.
Each operation only reads the tables; `create_heatmap` works on a copy of
each row (`data[category].copy()`, app.py:339), so the state handed back to
the next operation is the state that was read. -/
def runOp (s : AppState) : Op → (List (List ℚ)) × AppState
  | Op.heatmap year adj =>
      (THREAT_CATEGORIES.map (fun cat => adjustRow adj (get_maturity_data_of s year cat)), s)
  | Op.gapChart year =>
      ([THREAT_CATEGORIES.map (fun cat =>
          (get_maturity_data_of s year cat).getD 0 0
            - npMean ((get_maturity_data_of s year cat).drop 1))], s)
  | Op.radar category year =>
      (match categoryOfName category with
       | none => []
       | some cat => [get_maturity_data_of s year cat], s)
  | Op.quickStats year adj =>
      ([[npMean (THREAT_CATEGORIES.map (fun cat => (get_maturity_data_of s year cat).getD 0 0)),
         npMean (THREAT_CATEGORIES.map (fun cat => (get_maturity_data_of s year cat).getD 3 0))]], s)

/-- Run a sequence of render operations, threading the table state. -/
def runOps (s : AppState) : List Op → AppState
  | [] => s
  | op :: ops => runOps (runOp s op).2 ops

/-- `runOp` hands back exactly the state it read: the heatmap's adjustment
works on a copy of each row (app.py:339), and every other operation only reads. -/
lemma runOp_snd (s : AppState) (op : Op) : (runOp s op).2 = s := by
  cases op <;> rfl

/-- Running any sequence of render operations leaves the table state unchanged. -/
lemma runOps_eq (ops : List Op) : ∀ s : AppState, runOps s ops = s := by
  induction ops with
  | nil => intro s; rfl
  | cons op ops ih =>
      intro s
      show runOps (runOp s op).2 ops = s
      rw [runOp_snd, ih]


/-!  ## Claim theorems  -/

/-- C1, counterexample: `adjustedMatrix("2099", 0)` does not fail with an
unsupported-year error — `get_maturity_data` falls back to the 2025 table
(app.py:327), so the heatmap for year "2099" is the full, non-empty 2025
baseline matrix. -/
theorem c1_counterexample :
    get_maturity_data "2099" = MATURITY_DATA_2025 ∧
    create_heatmap_z "2099" 0 Category.promptInjection = [4, 5/2, 2, 1/2] := by
  exact ⟨rfl, rfl⟩

/-- C1, amended: an out-of-domain year does not raise a typed error — every
year outside {"2025", "2026", "2027"} silently falls back to the 2025 baseline
table, so `adjustedMatrix("2099", 0)` returns the 2025 base matrix; an
out-of-domain category name in the radar view silently yields an empty figure
(`none`), not a typed `UnknownCategory` error. -/
theorem c1_out_of_domain_fallback :
    get_maturity_data "2099" = MATURITY_DATA_2025 ∧
    (∀ year : String, year ≠ "2025" → year ≠ "2026" → year ≠ "2027" →
      get_maturity_data year = MATURITY_DATA_2025) ∧
    (∀ cat : Category, create_heatmap_z "2099" 0 cat = MATURITY_DATA_2025 cat) ∧
    create_radar_chart "Deepfakes" "2025" = none ∧
    (∀ name : String, categoryOfName name = none →
      create_radar_chart name "2025" = none) := by
  refine ⟨rfl, ?_, fun cat => rfl, rfl, ?_⟩
  · intro year h1 h2 h3
    unfold get_maturity_data get_maturity_data_of
    rw [if_neg h1, if_neg h2, if_neg h3]
    rfl
  · intro name h
    unfold create_radar_chart
    rw [h]

/-- C1, witness for the amended theorem's hypotheses at concrete inputs. -/
theorem c1_out_of_domain_fallback_witness :
    get_maturity_data "1999" = MATURITY_DATA_2025 ∧
    create_radar_chart "Model Theft" "2025" = none :=
  ⟨c1_out_of_domain_fallback.2.1 "1999" (by decide) (by decide) (by decide),
   c1_out_of_domain_fallback.2.2.2.2 "Model Theft" (by decide)⟩

/-- `adjustRow` on a four-entry row, with the conditional made explicit. -/
lemma adjustRow_cons (adj : ℕ) (r0 r1 r2 r3 : ℚ) :
    adjustRow adj [r0, r1, r2, r3]
      = if 0 < adj then [r0, r1, min 4 (r2 + adj * (1/2)), min 4 (r3 + adj * (3/10))]
        else [r0, r1, r2, r3] := by
  unfold adjustRow
  split <;> rfl

/-- When the base scores respect the 4.0 ceiling, the `adjustment > 0` guard
in `create_heatmap` is invisible: the adjusted row is the clamped formula for
every adjustment, including 0. -/
lemma heatmap_z_eq (adj : ℕ) (r0 r1 r2 r3 : ℚ) (h2 : r2 ≤ 4) (h3 : r3 ≤ 4) :
    adjustRow adj [r0, r1, r2, r3]
      = [r0, r1, min 4 (r2 + adj * (1/2)), min 4 (r3 + adj * (3/10))] := by
  rw [adjustRow_cons]
  split
  · rfl
  · next h =>
      have ha : adj = 0 := by omega
      subst ha
      simp [min_eq_right h2, min_eq_right h3]

/-- C2: for every supported year, category, and adjustment level in [0,4],
the adjusted matrix row keeps indices 0 (threat maturity) and 1 (technical
controls) unchanged, sets index 2 (governance) to
`min 4 (base + adjustment * 0.5)` and index 3 (stakeholder protections) to
`min 4 (base + adjustment * 0.3)`. -/
theorem c2_adjusted_matrix_formula (year : String)
    (hy : year = "2025" ∨ year = "2026" ∨ year = "2027")
    (adj : ℕ) (hadj : adj ≤ 4) (cat : Category) :
    create_heatmap_z year adj cat
      = [(get_maturity_data year cat).getD 0 0,
         (get_maturity_data year cat).getD 1 0,
         min 4 ((get_maturity_data year cat).getD 2 0 + adj * (1/2)),
         min 4 ((get_maturity_data year cat).getD 3 0 + adj * (3/10))] := by
  rcases hy with h | h | h <;> subst h <;> cases cat <;>
    exact heatmap_z_eq adj _ _ _ _ (by norm_num) (by norm_num)

/-- C2, witness: the formula at year 2025, adjustment 2, Prompt Injection. -/
theorem c2_adjusted_matrix_formula_witness :
    create_heatmap_z "2025" 2 Category.promptInjection
      = [(get_maturity_data "2025" Category.promptInjection).getD 0 0,
         (get_maturity_data "2025" Category.promptInjection).getD 1 0,
         min 4 ((get_maturity_data "2025" Category.promptInjection).getD 2 0
            + (2 : ℕ) * (1/2)),
         min 4 ((get_maturity_data "2025" Category.promptInjection).getD 3 0
            + (2 : ℕ) * (3/10))] :=
  c2_adjusted_matrix_formula "2025" (Or.inl rfl) 2 (by norm_num)
    Category.promptInjection

/-- C3: the protection gap is the threat score minus the mean of the other
three dimension scores of the un-adjusted base matrix; the gap series the
`update_charts` callback renders does not depend on the governance slider;
for Political Integrity in 2025 the gap is 4 − (1 + 0.5 + 0.5)/3 = 10/3. -/
theorem c3_protection_gap (year : String)
    (hy : year = "2025" ∨ year = "2026" ∨ year = "2027")
    (cat : Category) (a1 a2 : ℕ) :
    create_gap_analysis_gap year cat
      = (get_maturity_data year cat).getD 0 0
        - ((get_maturity_data year cat).getD 1 0
            + (get_maturity_data year cat).getD 2 0
            + (get_maturity_data year cat).getD 3 0) / 3 ∧
    update_charts_gap_chart year a1 = update_charts_gap_chart year a2 ∧
    create_gap_analysis_gap "2025" Category.politicalIntegrity = 10/3 := by
  refine ⟨?_, rfl, by
    norm_num [create_gap_analysis_gap, npMean, get_maturity_data_2025,
      MATURITY_DATA_2025]⟩
  rcases hy with h | h | h <;> subst h <;> cases cat <;>
    norm_num [create_gap_analysis_gap, npMean, get_maturity_data_2025,
      get_maturity_data_2026, get_maturity_data_2027, MATURITY_DATA_2025,
      MATURITY_DATA_2026, MATURITY_DATA_2027]

/-- C3, witness: the Political Integrity gap in 2025 equals 10/3. -/
theorem c3_protection_gap_witness :
    create_gap_analysis_gap "2025" Category.politicalIntegrity = 10/3 :=
  (c3_protection_gap "2025" (Or.inl rfl) Category.politicalIntegrity 0 3).2.2

/-- C4, counterexample: with adjustment 2 supplied to the render, the quick
statistics still report the base stakeholder column mean 7/8 = 0.875, while
the adjusted matrix's stakeholder column mean is 59/40 = 1.475 — so the
summary is not computed from the adjusted matrix as the claim states. -/
theorem c4_counterexample :
    (update_charts_stats "2025" 2).avg_stake = 7/8 ∧
    npMean (THREAT_CATEGORIES.map
      (fun cat => (create_heatmap_z "2025" 2 cat).getD 3 0)) = 59/40 ∧
    ((7 : ℚ)/8) ≠ 59/40 := by
  refine ⟨?_, ?_, by norm_num⟩ <;>
    norm_num [update_charts_stats, npMean, THREAT_CATEGORIES, create_heatmap_z,
      adjustRow, get_maturity_data_2025, MATURITY_DATA_2025]

/-- C4, amended: the quick statistics are the per-dimension column means of
the un-adjusted base matrix of the year — the adjustment supplied to the
callback has no effect on them — plus `overall_gap = avg_threat − avg_stake`;
for 2025 they give avg_threat = 4, avg_stake = 7/8 = 0.875 and
overall_gap = 25/8 = 3.125. -/
theorem c4_summary_statistics (year : String)
    (hy : year = "2025" ∨ year = "2026" ∨ year = "2027") (adj adj2 : ℕ) :
    update_charts_stats year adj = update_charts_stats year adj2 ∧
    (update_charts_stats year adj).avg_threat
      = npMean (THREAT_CATEGORIES.map (fun cat => (get_maturity_data year cat).getD 0 0)) ∧
    (update_charts_stats year adj).avg_tech
      = npMean (THREAT_CATEGORIES.map (fun cat => (get_maturity_data year cat).getD 1 0)) ∧
    (update_charts_stats year adj).avg_gov
      = npMean (THREAT_CATEGORIES.map (fun cat => (get_maturity_data year cat).getD 2 0)) ∧
    (update_charts_stats year adj).avg_stake
      = npMean (THREAT_CATEGORIES.map (fun cat => (get_maturity_data year cat).getD 3 0)) ∧
    (update_charts_stats year adj).overall_gap
      = (update_charts_stats year adj).avg_threat
        - (update_charts_stats year adj).avg_stake ∧
    (update_charts_stats "2025" adj).avg_threat = 4 ∧
    (update_charts_stats "2025" adj).avg_stake = 7/8 ∧
    (update_charts_stats "2025" adj).overall_gap = 25/8 := by
  refine ⟨rfl, rfl, rfl, rfl, rfl, rfl, ?_, ?_, ?_⟩ <;>
    norm_num [update_charts_stats, npMean, THREAT_CATEGORIES,
      get_maturity_data_2025, MATURITY_DATA_2025]

/-- C4, witness: the amended statement at year 2025, adjustments 2 and 0. -/
theorem c4_summary_statistics_witness :
    (update_charts_stats "2025" 2).overall_gap = 25/8 :=
  (c4_summary_statistics "2025" (Or.inl rfl) 2 0).2.2.2.2.2.2.2.2

/-- C5: on [0,4] the classifier returns the label of the unique band the
score lies in — Non-existent [0,0.5), Initial/Ad-hoc [0.5,1.5),
Developing [1.5,2.5), Defined [2.5,3.5), Managed/Mature [3.5,4] — and the
four boundary scores fall into the upper band. -/
theorem c5_classify_bands (s : ℚ) (h0 : 0 ≤ s) (h4 : s ≤ 4) :
    (s < 1/2 → get_level_description s = "Non-existent") ∧
    (1/2 ≤ s → s < 3/2 → get_level_description s = "Initial/Ad-hoc") ∧
    (3/2 ≤ s → s < 5/2 → get_level_description s = "Developing") ∧
    (5/2 ≤ s → s < 7/2 → get_level_description s = "Defined") ∧
    (7/2 ≤ s → get_level_description s = "Managed/Mature") ∧
    get_level_description (1/2) = "Initial/Ad-hoc" ∧
    get_level_description (3/2) = "Developing" ∧
    get_level_description (5/2) = "Defined" ∧
    get_level_description (7/2) = "Managed/Mature" := by
  refine ⟨fun h => ?_, fun ha hb => ?_, fun ha hb => ?_, fun ha hb => ?_, fun h => ?_,
    by norm_num [get_level_description], by norm_num [get_level_description],
    by norm_num [get_level_description], by norm_num [get_level_description]⟩ <;>
  · unfold get_level_description
    split_ifs <;> first | rfl | (exfalso; linarith)

/-- C5, witness: the boundary score 0.5 is classified Initial/Ad-hoc. -/
theorem c5_classify_bands_witness :
    get_level_description (1/2) = "Initial/Ad-hoc" :=
  (c5_classify_bands (1/2) (by norm_num) (by norm_num)).2.1 (by norm_num) (by norm_num)

/-- C6: the gap color is a pure threshold classifier with exclusive lower
bounds 2.5, 2.0, 1.5 checked in descending order, the first match winning;
gap 3.333 gets the highest-severity color, 1.6 the (>1.5, ≤2.0) color, and
1.0 the lowest-severity color. -/
theorem c6_severity_color (g : ℚ) :
    (5/2 < g → severityColor g = "#d73027") ∧
    (2 < g → g ≤ 5/2 → severityColor g = "#fc8d59") ∧
    (3/2 < g → g ≤ 2 → severityColor g = "#fee08b") ∧
    (g ≤ 3/2 → severityColor g = "#d9ef8b") ∧
    severityColor (3333/1000) = "#d73027" ∧
    severityColor (8/5) = "#fee08b" ∧
    severityColor 1 = "#d9ef8b" := by
  refine ⟨fun h => ?_, fun ha hb => ?_, fun ha hb => ?_, fun h => ?_,
    by norm_num [severityColor], by norm_num [severityColor],
    by norm_num [severityColor]⟩ <;>
  · unfold severityColor
    split_ifs <;> first | rfl | (exfalso; linarith)

/-- C6, witness: a gap of 9/4 lands in the second-severity bucket. -/
theorem c6_severity_color_witness : severityColor (9/4) = "#fc8d59" :=
  (c6_severity_color (9/4)).2.1 (by norm_num) (by norm_num)

/-- C7: adjustment 0 is the identity — the heatmap matrix at adjustment 0 is
the base matrix of the year, cell for cell. -/
theorem c7_zero_adjustment_identity (year : String)
    (hy : year = "2025" ∨ year = "2026" ∨ year = "2027") (cat : Category) :
    create_heatmap_z year 0 cat = get_maturity_data year cat := rfl

/-- C7, witness: the identity at year 2025, category Privacy. -/
theorem c7_zero_adjustment_identity_witness :
    create_heatmap_z "2025" 0 Category.privacy
      = get_maturity_data "2025" Category.privacy :=
  c7_zero_adjustment_identity "2025" (Or.inl rfl) Category.privacy

/-- Reading index 2 of an adjusted four-entry row. -/
lemma adjustRow_getD2 (adj : ℕ) (r0 r1 r2 r3 : ℚ) :
    (adjustRow adj [r0, r1, r2, r3]).getD 2 0
      = if 0 < adj then min 4 (r2 + adj * (1/2)) else r2 := by
  rw [adjustRow_cons]
  split <;> rfl

/-- Reading index 3 of an adjusted four-entry row. -/
lemma adjustRow_getD3 (adj : ℕ) (r0 r1 r2 r3 : ℚ) :
    (adjustRow adj [r0, r1, r2, r3]).getD 3 0
      = if 0 < adj then min 4 (r3 + adj * (3/10)) else r3 := by
  rw [adjustRow_cons]
  split <;> rfl

/-- A conditionally clamped score never exceeds the 4.0 ceiling. -/
lemma clamp_le_four (adj : ℕ) (b c : ℚ) (hb : b ≤ 4) :
    (if 0 < adj then min 4 (b + adj * c) else b) ≤ 4 := by
  split
  · exact min_le_left _ _
  · exact hb

/-- A conditionally clamped score is monotone in the adjustment when the
increment is non-negative and the base respects the ceiling. -/
lemma clamp_mono (b c : ℚ) (hb : b ≤ 4) (hc : 0 ≤ c) {a1 a2 : ℕ} (h : a1 ≤ a2) :
    (if 0 < a1 then min 4 (b + a1 * c) else b)
      ≤ (if 0 < a2 then min 4 (b + a2 * c) else b) := by
  have hmul : (a1 : ℚ) * c ≤ (a2 : ℚ) * c :=
    mul_le_mul_of_nonneg_right (by exact_mod_cast h) hc
  have hnn : (0 : ℚ) ≤ (a2 : ℚ) * c :=
    mul_nonneg (by positivity) hc
  split_ifs with h1 h2 h3
  · exact min_le_min le_rfl (by linarith)
  · exact absurd h1 (by omega)
  · exact le_min hb (by linarith)
  · exact le_rfl

/-- C8: for all supported years, categories, and adjustment levels 0–4, the
governance (index 2) and stakeholder (index 3) scores of the adjusted matrix
never exceed 4.0, and both are monotonically non-decreasing in the
adjustment level. -/
theorem c8_clamped_and_monotone (year : String)
    (hy : year = "2025" ∨ year = "2026" ∨ year = "2027") (cat : Category)
    (a1 a2 : ℕ) (h12 : a1 ≤ a2) (h4 : a2 ≤ 4) :
    (create_heatmap_z year a2 cat).getD 2 0 ≤ 4 ∧
    (create_heatmap_z year a2 cat).getD 3 0 ≤ 4 ∧
    (create_heatmap_z year a1 cat).getD 2 0 ≤ (create_heatmap_z year a2 cat).getD 2 0 ∧
    (create_heatmap_z year a1 cat).getD 3 0 ≤ (create_heatmap_z year a2 cat).getD 3 0 := by
  rcases hy with h | h | h <;> subst h <;> cases cat <;>
    simp only [create_heatmap_z, get_maturity_data_2025, get_maturity_data_2026,
      get_maturity_data_2027, MATURITY_DATA_2025, MATURITY_DATA_2026,
      MATURITY_DATA_2027, adjustRow_getD2, adjustRow_getD3] <;>
    exact ⟨clamp_le_four _ _ _ (by norm_num), clamp_le_four _ _ _ (by norm_num),
      clamp_mono _ _ (by norm_num) (by norm_num) h12,
      clamp_mono _ _ (by norm_num) (by norm_num) h12⟩

/-- C8, witness: ceiling and monotonicity at year 2025, Prompt Injection,
adjustments 1 ≤ 3. -/
theorem c8_clamped_and_monotone_witness :
    (create_heatmap_z "2025" 1 Category.promptInjection).getD 2 0
      ≤ (create_heatmap_z "2025" 3 Category.promptInjection).getD 2 0 :=
  (c8_clamped_and_monotone "2025" (Or.inl rfl) Category.promptInjection 1 3
    (by norm_num) (by norm_num)).2.2.1

/-- C9: the per-year base tables are never mutated — any sequence of heatmap,
gap-chart, radar, or quick-statistics renders, with any arguments, leaves the
process state exactly as initialized, each table still holding its constant. -/
theorem c9_tables_never_mutated (ops : List Op) :
    runOps initialState ops = initialState ∧
    (runOps initialState ops).maturity_data_2025 = MATURITY_DATA_2025 ∧
    (runOps initialState ops).maturity_data_2026 = MATURITY_DATA_2026 ∧
    (runOps initialState ops).maturity_data_2027 = MATURITY_DATA_2027 := by
  refine ⟨runOps_eq ops initialState, ?_, ?_, ?_⟩ <;>
    rw [runOps_eq ops initialState] <;> rfl

/-- C9, witness: a concrete render sequence leaves the state unchanged. -/
theorem c9_tables_never_mutated_witness :
    runOps initialState
      [Op.heatmap "2025" 4, Op.gapChart "2026", Op.radar "Privacy" "2027",
       Op.quickStats "2025" 3, Op.heatmap "2099" 2] = initialState :=
  (c9_tables_never_mutated
    [Op.heatmap "2025" 4, Op.gapChart "2026", Op.radar "Privacy" "2027",
     Op.quickStats "2025" 3, Op.heatmap "2099" 2]).1

/-- C10: every displayed cell label is the classification of the adjusted
score; at year 2025 the Prompt Injection governance cell (base 2.0) with
adjustment 2 is labeled "Defined" while its base score is labeled
"Developing", so the label differs from the base label. -/
theorem c10_labels_from_adjusted_scores (year : String) (adj : ℕ)
    (cat : Category) (i : ℕ) :
    create_heatmap_label year adj cat i
      = get_level_description ((create_heatmap_z year adj cat).getD i 0) ∧
    create_heatmap_label "2025" 2 Category.promptInjection 2 = "Defined" ∧
    get_level_description
        ((get_maturity_data "2025" Category.promptInjection).getD 2 0)
      = "Developing" ∧
    create_heatmap_label "2025" 2 Category.promptInjection 2
      ≠ get_level_description
          ((get_maturity_data "2025" Category.promptInjection).getD 2 0) := by
  have h1 : create_heatmap_label "2025" 2 Category.promptInjection 2 = "Defined" := by
    norm_num [create_heatmap_label, create_heatmap_z, adjustRow,
      get_maturity_data_2025, MATURITY_DATA_2025, get_level_description]
  have h2 : get_level_description
      ((get_maturity_data "2025" Category.promptInjection).getD 2 0)
      = "Developing" := by
    norm_num [get_maturity_data_2025, MATURITY_DATA_2025, get_level_description]
  refine ⟨rfl, h1, h2, ?_⟩
  rw [h1, h2]
  decide

/-- C10, witness: the label equation at a concrete cell. -/
theorem c10_labels_from_adjusted_scores_witness :
    create_heatmap_label "2026" 1 Category.privacy 0
      = get_level_description ((create_heatmap_z "2026" 1 Category.privacy).getD 0 0) :=
  (c10_labels_from_adjusted_scores "2026" 1 Category.privacy 0).1
